import Mathlib

/-!
Verification development for the `system-monitor` VS Code extension
(sources: `src/src/system-monitor/system-monitor-panel_copy.ts`,
`src/src/system-monitor/monitor-tree-data-provider.ts`, and the
activation file).  The metrics gathering and HTML rendering live in
`SystemMonitorPanel._getHtmlForWebview` (lines 108-1013 of
`system-monitor-panel_copy.ts`); the panel lifecycle lives in
`createOrShow` / `revive` / `dispose` (lines 18-98).

The embedding mirrors that code:
  * JavaScript arithmetic on the values that get divided is modelled by
    `JsNum` (finite rational, NaN, +Infinity, -Infinity), with
    `Number.prototype.toFixed(2)` modelled by `jsToFixed2`.
  * The sequence of `await` expressions (lines 132-160) is modelled as a
    computation in the `Except String` monad over a `ProbeEnv` of probe
    outcomes (`gatherInput`), plus an event trace `snapshotTrace`
    recording the launch/settlement order the `await`s impose.
  * The template-string fragments the claims are about are embedded as
    string-building functions (`cpuRow`, `swapUsedPercentStr`,
    `memGBCell`, the per-list row builders, the storage section).
    Constant HTML text is compressed to the load-bearing literals; the
    interpolated expressions are kept exactly.
-/

/-! ## Unit formatting (JS number semantics) -/

/-- Two-digit zero-padded rendering of a value below 100, as produced by
`toFixed(2)` for the fractional part. -/
def natTwoDigits (n : Nat) : String :=
  if n < 10 then "0" ++ toString n else toString n

/-- Print a number of hundredths as a fixed-point string with exactly two
fractional digits. -/
def fixed2OfHundredths (n : ℕ) : String :=
  toString (n / 100) ++ "." ++ natTwoDigits (n % 100)

/-- `toFixed(2)` on a nonnegative rational: round `q * 100` to the nearest
integer (ties away from zero, which agrees with JS on every exactly
representable input exercised below) and print two fractional digits. -/
def ratToFixed2Core (q : ℚ) : String :=
  fixed2OfHundredths (Int.floor (q * 100 + 1 / 2)).toNat

/-- `Number.prototype.toFixed(2)` on a finite JS number. -/
def ratToFixed2 (q : ℚ) : String :=
  if q < 0 then "-" ++ ratToFixed2Core (-q) else ratToFixed2Core q

/-- A JavaScript number as it matters to this code: a finite value
(modelled as a rational), `NaN`, or a signed infinity. -/
inductive JsNum where
  | nan
  | inf
  | ninf
  | fin (q : ℚ)
deriving DecidableEq

/-- JS division of two finite numbers: `0/0` is `NaN`, `x/0` is a signed
infinity for `x ≠ 0`, otherwise exact division. -/
def jsDivQ (a b : ℚ) : JsNum :=
  if b = 0 then
    if a = 0 then JsNum.nan else if 0 < a then JsNum.inf else JsNum.ninf
  else JsNum.fin (a / b)

/-- JS multiplication of a number by the finite positive literal `100`
(`NaN * 100 = NaN`, `Infinity * 100 = Infinity`). -/
def jsMul100 : JsNum → JsNum
  | JsNum.nan => JsNum.nan
  | JsNum.inf => JsNum.inf
  | JsNum.ninf => JsNum.ninf
  | JsNum.fin q => JsNum.fin (q * 100)

/-- `toFixed(2)` on a JS number: `"NaN"`, `"Infinity"`, `"-Infinity"`, or
the two-decimal rendering of the finite value. -/
def jsToFixed2 : JsNum → String
  | JsNum.nan => "NaN"
  | JsNum.inf => "Infinity"
  | JsNum.ninf => "-Infinity"
  | JsNum.fin q => ratToFixed2 q

/-- JS number-to-string as used by template interpolation, for integers and
terminating decimals (the only finite values appearing in the statements
below); a non-terminating rational is rendered as an explicit fraction, a
case that never arises in the theorems of this file. -/
def qToJsString (q : ℚ) : String :=
  let sgn : String := if q < 0 then "-" else ""
  let a : ℚ := |q|
  if a.den = 1 then sgn ++ toString a.num
  else
    match (List.range 31).find? (fun k => (10 ^ k : ℕ) % a.den = 0) with
    | some k =>
        let m : ℕ := a.num.toNat * (10 ^ k / a.den)
        let frac : String := toString (m % 10 ^ k)
        sgn ++ toString (m / 10 ^ k) ++ "." ++
          (String.mk (List.replicate (k - frac.length) '0') ++ frac)
    | none => sgn ++ toString a.num ++ "/" ++ toString a.den

/-- JS template interpolation of `list[i]` where `list` holds numbers:
an in-range index prints the number, an out-of-range access yields
`undefined`, which interpolates as the literal text `"undefined"`. -/
def jsIndexNum (l : List ℚ) (i : ℕ) : String :=
  match l.get? i with
  | some q => qToJsString q
  | none => "undefined"

/-- Interpolating a JS array of strings into a template string joins the
elements with commas (`Array.prototype.toString`). -/
def jsArrayToString (l : List String) : String :=
  String.intercalate "," l

/-! ## Data model

The record types mirror the shapes consumed from `systeminformation`,
`os-locale`, `public-ip`, `os.loadavg`, `pretty-ms` and `pretty-bytes` at
the fields the panel code actually reads; fields the code never touches
are elided. -/

structure OsInfo where
  platform : String
  distro : String
  release : String
  codename : String
  kernel : String
  arch : String
  hostname : String
  logofile : String
deriving DecidableEq

structure Gpu where
  model : String
  vendor : String
  bus : String
  vram : ℚ
  vramDynamic : Bool
deriving DecidableEq

structure Display where
  model : String
  main : Bool
  builtin : Bool
  connection : String
  resolutionx : ℚ
  resolutiony : ℚ
  sizex : ℚ
  sizey : ℚ
  pixeldepth : ℚ
deriving DecidableEq

structure Graphics where
  controllers : List Gpu
  displays : List Display
deriving DecidableEq

structure MemModule where
  size : ℚ
  bank : String
  type : String
  clockSpeed : ℚ
  formFactor : String
  manufacturer : String
  partNum : String
  serialNum : String
  voltageConfigured : ℚ
  voltageMin : ℚ
  voltageMax : ℚ
deriving DecidableEq

structure Disk where
  type : String
  name : String
  vendor : String
  size : ℚ
  bytesPerSector : ℚ
  totalCylinders : ℚ
  totalHeads : ℚ
  totalSectors : ℚ
  totalTracks : ℚ
  tracksPerCylinder : ℚ
  sectorsPerTrack : ℚ
  firmwareRevision : String
  serialNum : String
  interfaceType : String
  smartStatus : String
deriving DecidableEq

structure StaticData where
  os : OsInfo
  graphics : Graphics
  memLayout : List MemModule
  diskLayout : List Disk
deriving DecidableEq

structure TimeInfo where
  uptime : ℚ
  timezone : String
  timezoneName : String
deriving DecidableEq

structure CpuLoadEntry where
  load : ℚ
deriving DecidableEq

structure CurrentLoad where
  avgLoad : ℚ
  cpus : List CpuLoadEntry
deriving DecidableEq

/-- `si.cpuCurrentSpeed()` result at the field read on line 317. -/
structure CpuSpeed where
  cores : List ℚ
deriving DecidableEq

/-- `si.cpuTemperature()` result at the field read on line 318. -/
structure CpuTemp where
  cores : List ℚ
deriving DecidableEq

structure Processes where
  all : ℕ
  running : ℕ
  sleeping : ℕ
  blocked : ℕ
  unknown : ℕ
deriving DecidableEq

structure MemUsage where
  active : ℚ
  buffcache : ℚ
  free : ℚ
  used : ℚ
  total : ℚ
  swapused : ℚ
  swapfree : ℚ
  swaptotal : ℚ
deriving DecidableEq

/-- One element of the `si.fsSize()` result (fields read on lines 161-175). -/
structure FsRaw where
  fs : String
  type : String
  mount : String
  size : ℚ
  used : ℚ
  available : ℚ
  use : ℚ
deriving DecidableEq

/-- One element of the derived `fsSize` array built on lines 161-175. -/
structure FsEntry where
  prettySize : String
  prettyUsed : String
  prettyFree : String
  fs : String
  type : String
  size : ℚ
  used : ℚ
  available : ℚ
  use : ℚ
  mount : String
deriving DecidableEq

/-! ## The snapshot gathering of `_getHtmlForWebview` (lines 132-191) -/

/-- The synchronous external library functions the gathering code calls
(`pretty-ms`, `Date..toLocaleString`, `os.loadavg`, `pretty-bytes`); their
outputs are data the host supplies, so they are parameters of the model. -/
structure ExternalFns where
  prettyMs : ℤ → String
  nowLocaleString : String
  loadavg : ℚ × ℚ × ℚ
  prettyBytes : ℚ → String

/-- The outcome of each awaited probe promise: the value it fulfils with,
or the rejection reason.  One field per `await` on lines 132-160. -/
structure ProbeEnv where
  staticData : Except String StaticData
  locale : Except String String
  publicIpV4 : Except String String
  time : Except String TimeInfo
  currentLoad : Except String CurrentLoad
  cpuCurrentSpeed : Except String CpuSpeed
  cpuTemp : Except String CpuTemp
  processes : Except String Processes
  mem : Except String MemUsage
  fsSize : Except String (List FsRaw)

/-- The `input` record assembled on lines 176-190. -/
structure Input where
  staticData : StaticData
  listeningIp : String
  locale : String
  prettyUptime : String
  avgload : ℚ × ℚ × ℚ
  currentLoad : CurrentLoad
  prettyCurrent : String
  time : TimeInfo
  processes : Processes
  cpuCurrentspeed : CpuSpeed
  cpuTemp : CpuTemp
  memoryUsage : MemUsage
  fsSize : List FsEntry

/-- Lines 132-191 of `_getHtmlForWebview`: the probes are awaited one
after another with no `try`/`catch` around any of them, so the model is a
sequence of binds in `Except` — a rejected promise makes the whole
function reject.  The binds appear in source order. -/
def gatherInput (ext : ExternalFns) (env : ProbeEnv) : Except String Input := do
  let staticData ← env.staticData                                  -- line 132
  let locale ← env.locale                                          -- line 133
  let listeningIp ← env.publicIpV4                                 -- line 134
  let time ← env.time                                              -- line 151
  let prettyUptime := ext.prettyMs (Int.floor time.uptime * 1000)  -- line 152
  let prettyCurrent := ext.nowLocaleString                         -- line 153
  let avgload := ext.loadavg                                       -- line 154
  let currentLoad ← env.currentLoad                                -- line 155
  let cpuCurrentspeed ← env.cpuCurrentSpeed                        -- line 156
  let cpuTemp ← env.cpuTemp                                        -- line 157
  let processes ← env.processes                                    -- line 158
  let memoryUsage ← env.mem                                        -- line 159
  let fsSizes ← env.fsSize                                         -- line 160
  let fsSize := fsSizes.map (fun x =>                              -- lines 161-175
    { prettySize := ext.prettyBytes x.size
      prettyUsed := ext.prettyBytes x.used
      prettyFree := ext.prettyBytes (x.size - x.used)
      fs := x.fs
      type := x.type
      size := x.size
      used := x.used
      available := x.available
      use := x.use
      mount := x.mount : FsEntry })
  pure { staticData := staticData, locale := locale, listeningIp := listeningIp,
         time := time, prettyUptime := prettyUptime, prettyCurrent := prettyCurrent,
         avgload := avgload, currentLoad := currentLoad, processes := processes,
         memoryUsage := memoryUsage, fsSize := fsSize,
         cpuCurrentspeed := cpuCurrentspeed, cpuTemp := cpuTemp }

/-- Whether an `Except` computation produced a value. -/
def okB : Except String α → Bool
  | Except.ok _ => true
  | Except.error _ => false

/-! ## Launch/settlement order of the probes

Each `await e` expression starts the operation `e` and suspends the
function until that one operation settles; only then does control reach
the next expression.  `snapshotTrace` records the event order that the
`await` chain of lines 132-160 imposes, ending with the assembly of the
`input` record on lines 176-190. -/

inductive ProbeId where
  | staticData
  | locale
  | publicIp
  | time
  | currentLoad
  | cpuSpeed
  | cpuTemp
  | processes
  | mem
  | fsSize
deriving DecidableEq

inductive SnapEvent where
  | launch (p : ProbeId)
  | settle (p : ProbeId)
  | assemble
deriving DecidableEq

/-- The ten probes in the order the source awaits them. -/
def probeIds : List ProbeId :=
  [ProbeId.staticData, ProbeId.locale, ProbeId.publicIp, ProbeId.time,
   ProbeId.currentLoad, ProbeId.cpuSpeed, ProbeId.cpuTemp,
   ProbeId.processes, ProbeId.mem, ProbeId.fsSize]

/-- Event order produced by lines 132-160 (each probe is started and
awaited to settlement before the next is started) followed by the record
assembly of lines 176-190. -/
def snapshotTrace : List SnapEvent :=
  [SnapEvent.launch ProbeId.staticData, SnapEvent.settle ProbeId.staticData,   -- line 132
   SnapEvent.launch ProbeId.locale, SnapEvent.settle ProbeId.locale,           -- line 133
   SnapEvent.launch ProbeId.publicIp, SnapEvent.settle ProbeId.publicIp,       -- line 134
   SnapEvent.launch ProbeId.time, SnapEvent.settle ProbeId.time,               -- line 151
   SnapEvent.launch ProbeId.currentLoad, SnapEvent.settle ProbeId.currentLoad, -- line 155
   SnapEvent.launch ProbeId.cpuSpeed, SnapEvent.settle ProbeId.cpuSpeed,       -- line 156
   SnapEvent.launch ProbeId.cpuTemp, SnapEvent.settle ProbeId.cpuTemp,         -- line 157
   SnapEvent.launch ProbeId.processes, SnapEvent.settle ProbeId.processes,     -- line 158
   SnapEvent.launch ProbeId.mem, SnapEvent.settle ProbeId.mem,                 -- line 159
   SnapEvent.launch ProbeId.fsSize, SnapEvent.settle ProbeId.fsSize,           -- line 160
   SnapEvent.assemble]                                                         -- lines 176-190

/-- Does some probe other than `p` get launched in the remainder of the
trace? -/
def launchOfOtherAfter (p : ProbeId) : List SnapEvent → Bool
  | [] => false
  | SnapEvent.launch q :: rest => (!(q = p : Bool)) || launchOfOtherAfter p rest
  | _ :: rest => launchOfOtherAfter p rest

/-- Concurrent-launch property of a trace: after any probe settles, no
*other* probe is launched any more — i.e. no probe launch waits on
another probe having delivered its result. -/
def concurrentLaunches : List SnapEvent → Bool
  | [] => true
  | SnapEvent.settle p :: rest =>
      (!launchOfOtherAfter p rest) && concurrentLaunches rest
  | _ :: rest => concurrentLaunches rest

/-- Strict sequentiality of a trace: launch/settle pairs of the same
probe follow one another, closed by the assembly event. -/
def strictlySequential : List SnapEvent → Bool
  | [SnapEvent.assemble] => true
  | SnapEvent.launch p :: SnapEvent.settle q :: rest =>
      (p = q : Bool) && strictlySequential rest
  | _ => false

/-- The events preceding the `assemble` event of a trace. -/
def beforeAssemble (t : List SnapEvent) : List SnapEvent :=
  t.takeWhile (fun e => !(e = SnapEvent.assemble : Bool))

/-- Every probe of `probeIds` has settled before assembly happens. -/
def allSettledBeforeAssemble (t : List SnapEvent) : Bool :=
  probeIds.all (fun p => (beforeAssemble t).contains (SnapEvent.settle p))

/-! ## Rendered fragments of the HTML template (lines 196-1012) -/

/-- `.map` with the element index, as in `list.map((x, index) => ...)`. -/
def mapWithIndex (f : ℕ → α → β) : ℕ → List α → List β
  | _, [] => []
  | i, a :: l => f i a :: mapWithIndex f (i + 1) l

/-- The Load cell of a CPU row (lines 311-316). -/
def cpuLoadCell (cpu : CpuLoadEntry) : String :=
  "<td><div class=\"progress\"><div class=\"progress-bar\" style=\"width: "
    ++ qToJsString cpu.load ++ "%;\"></div></div><div class=\"text-center\">"
    ++ ratToFixed2 cpu.load ++ "%</div></td>"

/-- The Speed cell of a CPU row (line 317): `cpuCurrentspeed.cores[index]`
interpolated, then the text ` Ghz`. -/
def cpuSpeedCell (speedCores : List ℚ) (i : ℕ) : String :=
  "<td>" ++ jsIndexNum speedCores i ++ " Ghz</td>"

/-- The Temp cell of a CPU row (line 318): `cpuTemp.cores[index]`
interpolated. -/
def cpuTempCell (tempCores : List ℚ) (i : ℕ) : String :=
  "<td>" ++ jsIndexNum tempCores i ++ "</td>"

/-- One row of the CPU Usage table (lines 309-320). -/
def cpuRow (speedCores tempCores : List ℚ) (i : ℕ) (cpu : CpuLoadEntry) : String :=
  "<tr><td>Core " ++ toString (i + 1) ++ "</td>"
    ++ cpuLoadCell cpu ++ cpuSpeedCell speedCores i ++ cpuTempCell tempCores i
    ++ "</tr>"

/-- The CPU Usage table body (lines 308-321): a `.map` over
`currentLoad.cpus` with no `.join`, so the resulting array is
comma-joined by template interpolation. -/
def cpuRowsHtml (load : CurrentLoad) (speed : CpuSpeed) (temp : CpuTemp) : String :=
  jsArrayToString (mapWithIndex (cpuRow speed.cores temp.cores) 0 load.cpus)

/-- The physical-memory usage figure of line 353:
`(memoryUsage.used / memoryUsage.total * 100).toFixed(2)` followed by `%`. -/
def physicalUsedPercentStr (m : MemUsage) : String :=
  jsToFixed2 (jsMul100 (jsDivQ m.used m.total)) ++ "%"

/-- The swap usage figure of line 367:
`(memoryUsage.swapused / memoryUsage.swaptotal * 100).toFixed(2)`
followed by `%`. -/
def swapUsedPercentStr (m : MemUsage) : String :=
  jsToFixed2 (jsMul100 (jsDivQ m.swapused m.swaptotal)) ++ "%"

/-- The byte cells of the Memory Usage table (lines 357-359 and 369-371):
`(n / 1024 / 1024 / 1024).toFixed(2)` followed by ` GB`, whatever the
magnitude of `n`. -/
def memGBCell (n : ℚ) : String :=
  ratToFixed2 (n / 1024 / 1024 / 1024) ++ " GB"

/-- One GPU sub-table (lines 666-698); the GPU map interpolates the
0-based `index` directly. -/
def renderGpuRow (i : ℕ) (gpu : Gpu) : String :=
  "<tr><td>" ++ toString i ++ "</td><td><table><tbody>"
    ++ "<tr><td>Model</td><td>" ++ gpu.model ++ "</td></tr>"
    ++ "<tr><td>Vendor</td><td>" ++ gpu.vendor ++ "</td></tr>"
    ++ "<tr><td>Bus</td><td>" ++ gpu.bus ++ "</td></tr>"
    ++ "<tr><td>Vram</td><td>" ++ qToJsString gpu.vram ++ " MB</td></tr>"
    ++ "<tr><td>VramDynamic</td><td>" ++ (if gpu.vramDynamic then "true" else "false") ++ "</td></tr>"
    ++ "</tbody></table></td></tr>"

/-- The GPU table body (lines 665-700): `.map(...).join("")`. -/
def gpuRowsHtml (gpus : List Gpu) : String :=
  String.join (mapWithIndex renderGpuRow 0 gpus)

/-- One display sub-table (lines 714-762); interpolates `index + 1`. -/
def renderDisplayRow (i : ℕ) (d : Display) : String :=
  "<tr><td>" ++ toString (i + 1) ++ "</td><td><table><tbody>"
    ++ "<tr><td>Model</td><td>" ++ d.model ++ "</td></tr>"
    ++ "<tr><td>main</td><td>" ++ (if d.main then "true" else "false") ++ "</td></tr>"
    ++ "<tr><td>builtin</td><td>" ++ (if d.builtin then "true" else "false") ++ "</td></tr>"
    ++ "<tr><td>connection</td><td>" ++ d.connection ++ "</td></tr>"
    ++ "<tr><td>resolutionx</td><td>" ++ qToJsString d.resolutionx ++ "</td></tr>"
    ++ "<tr><td>resolutiony</td><td>" ++ qToJsString d.resolutiony ++ "</td></tr>"
    ++ "<tr><td>sizex</td><td>" ++ qToJsString d.sizex ++ "</td></tr>"
    ++ "<tr><td>sizey</td><td>" ++ qToJsString d.sizey ++ "</td></tr>"
    ++ "<tr><td>pixeldepth</td><td>" ++ qToJsString d.pixeldepth ++ "</td></tr>"
    ++ "</tbody></table></td></tr>"

/-- The Display table body (lines 713-764): `.map` with no `.join`, so
comma-joined on interpolation. -/
def displayRowsHtml (displays : List Display) : String :=
  jsArrayToString (mapWithIndex renderDisplayRow 0 displays)

/-- One memory-module sub-table (lines 778-833); interpolates `index + 1`. -/
def renderMemModuleRow (i : ℕ) (mem : MemModule) : String :=
  "<tr><td>" ++ toString (i + 1) ++ "</td><td><table><tbody>"
    ++ "<tr><td>size</td><td>" ++ memGBCell mem.size ++ "</td></tr>"
    ++ "<tr><td>bank</td><td>" ++ mem.bank ++ "</td></tr>"
    ++ "<tr><td>type</td><td>" ++ mem.type ++ "</td></tr>"
    ++ "<tr><td>clockSpeed</td><td>" ++ qToJsString mem.clockSpeed ++ "</td></tr>"
    ++ "<tr><td>formFactor</td><td>" ++ mem.formFactor ++ "</td></tr>"
    ++ "<tr><td>manufacturer</td><td>" ++ mem.manufacturer ++ "</td></tr>"
    ++ "<tr><td>partNum</td><td>" ++ mem.partNum ++ "</td></tr>"
    ++ "<tr><td>serialNum</td><td>" ++ mem.serialNum ++ "</td></tr>"
    ++ "<tr><td>voltageConfigured</td><td>" ++ qToJsString mem.voltageConfigured ++ "</td></tr>"
    ++ "<tr><td>voltageMin</td><td>" ++ qToJsString mem.voltageMin ++ "</td></tr>"
    ++ "<tr><td>voltageMax</td><td>" ++ qToJsString mem.voltageMax ++ "</td></tr>"
    ++ "</tbody></table></td></tr>"

/-- The memLayout table body (lines 777-836): `.map` with no `.join`. -/
def memLayoutRowsHtml (mems : List MemModule) : String :=
  jsArrayToString (mapWithIndex renderMemModuleRow 0 mems)

/-- One disk sub-table (lines 850-921); interpolates `index + 1`. -/
def renderDiskRow (i : ℕ) (disk : Disk) : String :=
  "<tr><td>" ++ toString (i + 1) ++ "</td><td><table><tbody>"
    ++ "<tr><td>type</td><td>" ++ disk.type ++ "</td></tr>"
    ++ "<tr><td>name</td><td>" ++ disk.name ++ "</td></tr>"
    ++ "<tr><td>vendor</td><td>" ++ disk.vendor ++ "</td></tr>"
    ++ "<tr><td>size</td><td>" ++ memGBCell disk.size ++ "</td></tr>"
    ++ "<tr><td>bytesPerSector</td><td>" ++ qToJsString disk.bytesPerSector ++ "</td></tr>"
    ++ "<tr><td>totalCylinders</td><td>" ++ qToJsString disk.totalCylinders ++ "</td></tr>"
    ++ "<tr><td>totalHeads</td><td>" ++ qToJsString disk.totalHeads ++ "</td></tr>"
    ++ "<tr><td>totalSectors</td><td>" ++ qToJsString disk.totalSectors ++ "</td></tr>"
    ++ "<tr><td>totalTracks</td><td>" ++ qToJsString disk.totalTracks ++ "</td></tr>"
    ++ "<tr><td>tracksPerCylinder</td><td>" ++ qToJsString disk.tracksPerCylinder ++ "</td></tr>"
    ++ "<tr><td>sectorsPerTrack</td><td>" ++ qToJsString disk.sectorsPerTrack ++ "</td></tr>"
    ++ "<tr><td>firmwareRevision</td><td>" ++ disk.firmwareRevision ++ "</td></tr>"
    ++ "<tr><td>serialNum</td><td>" ++ disk.serialNum ++ "</td></tr>"
    ++ "<tr><td>interfaceType</td><td>" ++ disk.interfaceType ++ "</td></tr>"
    ++ "<tr><td>smartStatus</td><td>" ++ disk.smartStatus ++ "</td></tr>"
    ++ "</tbody></table></td></tr>"

/-- The diskLayout table body (lines 849-924): `.map` with no `.join`. -/
def diskLayoutRowsHtml (disks : List Disk) : String :=
  jsArrayToString (mapWithIndex renderDiskRow 0 disks)

/-- One Storage Usage row (lines 399-414); the storage map uses no index. -/
def storageRow (s : FsEntry) : String :=
  "<tr><td>" ++ s.mount ++ "</td><td>" ++ s.type ++ "</td><td>" ++ s.fs
    ++ "</td><td><div class=\"progress\"><div class=\"progress-bar\" style=\"width: "
    ++ jsToFixed2 (jsMul100 (jsDivQ s.used s.size)) ++ "%;\"></div></div><div class=\"text-center\">"
    ++ jsToFixed2 (jsMul100 (jsDivQ s.used s.size)) ++ "%</div></td><td>"
    ++ s.prettyFree ++ "</td><td>" ++ s.prettyUsed ++ "</td><td>" ++ s.prettySize
    ++ "</td></tr>"

/-- The static markup opening the Storage Usage card (lines 380-397),
including the section title and the column headers. -/
def storageSectionHead : String :=
  "<div class=\"col-12 mb-3\"><div class=\"card text-white shadow-sm\">"
    ++ "<h6 class=\"card-header\">Storage Usage</h6><div class=\"card-body\">"
    ++ "<div class=\"table-responsive\"><table class=\"table table-hover table-sm\">"
    ++ "<thead><tr><th scope=\"col\">Mount</th><th scope=\"col\">Type</th>"
    ++ "<th scope=\"col\">Fs</th><th scope=\"col\" style=\"width:50%\">Usage</th>"
    ++ "<th scope=\"col\">Free</th><th scope=\"col\">Used</th>"
    ++ "<th scope=\"col\">Total</th></tr></thead><tbody>"

/-- The static markup closing the Storage Usage card (lines 416-421). -/
def storageSectionTail : String :=
  "</tbody></table></div></div></div></div>"

/-- The whole Storage Usage section (lines 380-421): header markup, the
comma-joined mapped rows (`fsSize?.map(...)` with no `.join`), and the
closing markup.  It is emitted unconditionally. -/
def storageSectionHtml (fs : List FsEntry) : String :=
  storageSectionHead ++ jsArrayToString (fs.map storageRow) ++ storageSectionTail

/-- Number of storage sub-rows the section holds. -/
def storageRowCount (fs : List FsEntry) : ℕ :=
  (fs.map storageRow).length

/-! ## Panel lifecycle (lines 18-98) -/

/-- The tracked-panel state of the `SystemMonitorPanel` class: the static
`currentPanel` field, with instances identified by creation order
(`nextId` counts how many instances were ever constructed). -/
structure PanelState where
  currentPanel : Option ℕ
  nextId : ℕ
deriving DecidableEq

inductive PanelOp where
  | createOrShow
  | revive
  | dispose
deriving DecidableEq

/-- State transitions of the panel lifecycle:
  * `createOrShow` (lines 18-38): if a panel is tracked, reveal it and
    change nothing; otherwise construct a new instance and track it.
  * `revive` (lines 40-42): construct a new instance and track it.
  * `dispose` (lines 86-98): set `currentPanel` to `undefined`. -/
def stepPanel : PanelOp → PanelState → PanelState
  | PanelOp.createOrShow, s =>
      match s.currentPanel with
      | some _ => s
      | none => { currentPanel := some s.nextId, nextId := s.nextId + 1 }
  | PanelOp.revive, s => { currentPanel := some s.nextId, nextId := s.nextId + 1 }
  | PanelOp.dispose, s => { s with currentPanel := none }

/-- Run a sequence of lifecycle calls. -/
def runPanel : List PanelOp → PanelState → PanelState
  | [], s => s
  | op :: ops, s => runPanel ops (stepPanel op s)

/-- Every tracked instance was created earlier than the next id to be
handed out. -/
def panelInv (s : PanelState) : Prop :=
  ∀ p, s.currentPanel = some p → p < s.nextId

/-- The extension activates with no tracked panel. -/
def initPanelState : PanelState :=
  { currentPanel := none, nextId := 0 }

/-! ## Helper lemmas -/

theorem natTwoDigits_length : ∀ m, m < 100 → (natTwoDigits m).length = 2 := by decide

/-- Evaluation bridge for `ratToFixed2`: once the rounded number of
hundredths is known, the output is a pure `Nat`-level string. -/
theorem ratToFixed2_eval (q : ℚ) (n : ℕ) (h0 : ¬ q < 0)
    (h : Int.floor (q * 100 + 1 / 2) = (n : ℤ)) :
    ratToFixed2 q = fixed2OfHundredths n := by
  rw [ratToFixed2, if_neg h0, ratToFixed2Core, h]
  norm_num

/-- Evaluation bridge for the `(a / b * 100).toFixed(2)` pattern with a
nonzero denominator. -/
theorem percentJs_eval (a b : ℚ) (hb : b ≠ 0) (n : ℕ)
    (h0 : ¬ a / b * 100 < 0)
    (h : Int.floor (a / b * 100 * 100 + 1 / 2) = (n : ℤ)) :
    jsToFixed2 (jsMul100 (jsDivQ a b)) = fixed2OfHundredths n := by
  rw [jsDivQ, if_neg hb]
  show ratToFixed2 (a / b * 100) = fixed2OfHundredths n
  exact ratToFixed2_eval _ n h0 h

theorem mapWithIndex_length (f : ℕ → α → β) :
    ∀ (i : ℕ) (l : List α), (mapWithIndex f i l).length = l.length
  | _, [] => rfl
  | i, _ :: l => by simp [mapWithIndex, mapWithIndex_length f (i + 1) l]

theorem mapWithIndex_get? (f : ℕ → α → β) :
    ∀ (i j : ℕ) (l : List α),
      (mapWithIndex f i l).get? j = (l.get? j).map (fun a => f (i + j) a)
  | _, _, [] => by simp [mapWithIndex]
  | _, 0, _ :: _ => by simp [mapWithIndex]
  | i, j + 1, _ :: l => by
      have h1 : i + 1 + j = i + (j + 1) := by omega
      have ih := mapWithIndex_get? f (i + 1) j l
      simp only [mapWithIndex, List.get?_cons_succ, ih, h1]

/-! ## Sample data for the concrete evaluations -/

def sampleOs : OsInfo :=
  { platform := "linux", distro := "Ubuntu", release := "20.04", codename := "focal",
    kernel := "5.4.0", arch := "x64", hostname := "host1", logofile := "ubuntu" }

def sampleStatic : StaticData :=
  { os := sampleOs, graphics := { controllers := [], displays := [] },
    memLayout := [], diskLayout := [] }

def sampleTime : TimeInfo :=
  { uptime := 3600, timezone := "GMT+0000", timezoneName := "UTC" }

def sampleLoad : CurrentLoad := { avgLoad := 12, cpus := [{ load := 50 }] }

def sampleSpeed : CpuSpeed := { cores := [3] }

def sampleTemp : CpuTemp := { cores := [55] }

def sampleProcs : Processes :=
  { all := 100, running := 2, sleeping := 98, blocked := 0, unknown := 0 }

/-- Memory sample with no swap configured: `swaptotal = 0`. -/
def sampleMem : MemUsage :=
  { active := 4, buffcache := 1, free := 3, used := 5, total := 8,
    swapused := 0, swapfree := 0, swaptotal := 0 }

/-- Memory sample with 8 GiB used of 16 GiB total. -/
def mem8of16 : MemUsage :=
  { active := 2147483648, buffcache := 1073741824, free := 8589934592,
    used := 8589934592, total := 17179869184,
    swapused := 0, swapfree := 0, swaptotal := 0 }

def ext0 : ExternalFns :=
  { prettyMs := fun _ => "1 hour", nowLocaleString := "1/1/2026, 12:00:00 AM",
    loadavg := (0, 0, 0), prettyBytes := fun _ => "0 B" }

/-- An environment in which every probe fulfils. -/
def envAllOk : ProbeEnv :=
  { staticData := Except.ok sampleStatic, locale := Except.ok "en-US",
    publicIpV4 := Except.ok "1.2.3.4", time := Except.ok sampleTime,
    currentLoad := Except.ok sampleLoad, cpuCurrentSpeed := Except.ok sampleSpeed,
    cpuTemp := Except.ok sampleTemp, processes := Except.ok sampleProcs,
    mem := Except.ok sampleMem, fsSize := Except.ok [] }

/-- Same environment except the temperature probe rejects. -/
def envTempFault : ProbeEnv := { envAllOk with cpuTemp := Except.error "sensor fault" }

/-- Same environment except the external-IP lookup rejects. -/
def envIpFail : ProbeEnv := { envAllOk with publicIpV4 := Except.error "timeout" }

/-! ## C6 -/

/-- C6: for a memory sample with used = 8 GiB and total = 16 GiB, the
rendered physical-memory usage percentage (line 353) is exactly the
string `"50.00%"`. -/
theorem physicalPercent_8GiB_of_16GiB : physicalUsedPercentStr mem8of16 = "50.00%" := by
  rw [physicalUsedPercentStr,
    percentJs_eval mem8of16.used mem8of16.total (by norm_num [mem8of16]) 5000
      (by norm_num [mem8of16]) (by norm_num [mem8of16])]
  decide

/-! ## C2 -/

/-- C2 fails as stated: with `swapused = 0` and `swaptotal = 0` (no swap
configured) the rendered swap-usage percentage of line 367 is the string
`"NaN%"`, not `"N/A"` — the code contains no zero-denominator guard and
no percent formatter returning `"N/A"`. -/
theorem swapPercent_zero_is_NaN :
    swapUsedPercentStr sampleMem = "NaN%" ∧ swapUsedPercentStr sampleMem ≠ "N/A" := by
  have hnan : jsDivQ sampleMem.swapused sampleMem.swaptotal = JsNum.nan := by
    rw [jsDivQ, if_pos (show sampleMem.swaptotal = (0 : ℚ) from rfl),
      if_pos (show sampleMem.swapused = (0 : ℚ) from rfl)]
  rw [swapUsedPercentStr, hnan]
  exact ⟨by decide, by decide⟩

/-- C2 (amended): with `swaptotal = 0` the rendered swap-usage
percentage is `"NaN%"` when `swapused = 0`, `"Infinity%"` when
`swapused > 0`, and `"-Infinity%"` otherwise; the string `"N/A"` is
never produced. -/
theorem swapPercent_swaptotal_zero (m : MemUsage) (h : m.swaptotal = 0) :
    swapUsedPercentStr m =
      (if m.swapused = 0 then "NaN%"
       else if 0 < m.swapused then "Infinity%" else "-Infinity%") := by
  rw [swapUsedPercentStr, jsDivQ, h, if_pos rfl]
  by_cases h0 : m.swapused = 0
  · rw [if_pos h0, if_pos h0]; rfl
  · rw [if_neg h0, if_neg h0]
    by_cases h1 : 0 < m.swapused
    · rw [if_pos h1, if_pos h1]; rfl
    · rw [if_neg h1, if_neg h1]; rfl

/-- C2 witness: the amended statement applied to the concrete no-swap
sample. -/
theorem swapPercent_swaptotal_zero_witness : swapUsedPercentStr sampleMem = "NaN%" := by
  have h := swapPercent_swaptotal_zero sampleMem rfl
  rw [h, if_pos (show sampleMem.swapused = (0 : ℚ) from rfl)]

/-! ## C5 -/

/-- C5 fails as stated: the memory byte cells of lines 357-359 always
divide by 1024³ and append `" GB"`.  An input of 100 bytes (below 1024)
is rendered as `"0.00 GB"` — not in plain bytes and with a numeric part
below 1 in the chosen unit — and an input of 2048 GiB is rendered as
`"2048.00 GB"`, whose numeric part is not below 1024. -/
theorem memGBCell_not_unit_scaled :
    memGBCell 100 = "0.00 GB" ∧ memGBCell 2199023255552 = "2048.00 GB" := by
  constructor
  · rw [memGBCell, ratToFixed2_eval _ 0 (by norm_num) (by norm_num)]
    decide
  · rw [memGBCell, ratToFixed2_eval _ 204800 (by norm_num) (by norm_num)]
    decide

/-- C5 (amended): for every nonnegative byte count the memory cells of
lines 357-359 render the fixed quantity `n / 1024³` with exactly two
decimal digits followed by the single unit `" GB"`; no unit is selected
by magnitude and no plain-byte fallback exists (the filesystem cells of
lines 161-175 instead delegate to the external `pretty-bytes` library). -/
theorem memGBCell_shape (n : ℚ) (h : 0 ≤ n) :
    ∃ intPart fracPart : String,
      memGBCell n = intPart ++ "." ++ fracPart ++ " GB" ∧ fracPart.length = 2 := by
  have hq : ¬ n / 1024 / 1024 / 1024 < 0 :=
    not_lt.mpr (div_nonneg (div_nonneg (div_nonneg h (by norm_num)) (by norm_num)) (by norm_num))
  rw [memGBCell, ratToFixed2, if_neg hq, ratToFixed2Core, fixed2OfHundredths]
  refine ⟨toString ((Int.floor (n / 1024 / 1024 / 1024 * 100 + 1 / 2)).toNat / 100),
    natTwoDigits ((Int.floor (n / 1024 / 1024 / 1024 * 100 + 1 / 2)).toNat % 100), rfl, ?_⟩
  exact natTwoDigits_length _ (Nat.mod_lt _ (by norm_num))

/-- C5 witness: the amended statement applied at 100 bytes. -/
theorem memGBCell_shape_witness :
    ∃ intPart fracPart : String,
      memGBCell 100 = intPart ++ "." ++ fracPart ++ " GB" ∧ fracPart.length = 2 :=
  memGBCell_shape 100 (by norm_num)

/-! ## C1 -/

/-- C1 fails as stated (amended form): no probe fault is contained — the
snapshot `input` record of lines 176-190 is produced exactly when every
one of the ten awaited probes fulfils, because the `await`s of lines
132-160 have no `try`/`catch`; any single rejection makes the whole
`_getHtmlForWebview` promise reject instead of marking one field
absent. -/
theorem gatherInput_okB (ext : ExternalFns) (env : ProbeEnv) :
    okB (gatherInput ext env) =
      (okB env.staticData && okB env.locale && okB env.publicIpV4 && okB env.time &&
       okB env.currentLoad && okB env.cpuCurrentSpeed && okB env.cpuTemp &&
       okB env.processes && okB env.mem && okB env.fsSize) := by
  obtain ⟨sd, lo, ip, ti, cl, cs, ct, pr, me, fs⟩ := env
  cases sd <;> cases lo <;> cases ip <;> cases ti <;> cases cl <;> cases cs <;>
    cases ct <;> cases pr <;> cases me <;> cases fs <;> rfl

/-- C1 counterexample: in an environment where only the temperature probe
faults, the claim demands a snapshot with exactly that field absent; the
code instead produces no snapshot at all — the fault propagates out of
the gathering code unchanged. -/
theorem gatherInput_tempFault_aborts :
    okB (gatherInput ext0 envAllOk) = true ∧
    gatherInput ext0 envTempFault = Except.error "sensor fault" :=
  ⟨rfl, rfl⟩

/-! ## C3 -/

theorem gatherInput_ip_error (ext : ExternalFns) (env : ProbeEnv) (sd : StaticData)
    (lo : String) (e : String) (h1 : env.staticData = Except.ok sd)
    (h2 : env.locale = Except.ok lo) (h3 : env.publicIpV4 = Except.error e) :
    gatherInput ext env = Except.error e := by
  obtain ⟨sd0, lo0, ip0, ti, cl, cs, ct, pr, me, fs⟩ := env
  simp only at h1 h2 h3
  subst h1; subst h2; subst h3
  rfl

theorem gatherInput_ok_ip (ext : ExternalFns) (env : ProbeEnv) (inp : Input)
    (h : gatherInput ext env = Except.ok inp) :
    env.publicIpV4 = Except.ok inp.listeningIp := by
  obtain ⟨sd, lo, ip, ti, cl, cs, ct, pr, me, fs⟩ := env
  cases sd <;> cases lo <;> cases ip <;> cases ti <;> cases cl <;> cases cs <;>
    cases ct <;> cases pr <;> cases me <;> cases fs <;>
    first
      | exact Except.noConfusion h
      | (cases h; rfl)

/-- C3 fails as stated (amended form): the external-IP lookup of line 134
is awaited in sequence with no catch, no fallback and no own timeout
handling — (a) if it rejects (timeout, no connectivity) while the two
probes awaited before it fulfilled, the whole snapshot build rejects
with that very fault instead of degrading; (b) whenever a snapshot is
produced, its `listeningIp` is exactly the probe's fulfilled value, so
the marker `"unknown"` is never substituted; and (c) the lookup blocks
the rest of the snapshot: it settles before the time probe (and hence
every later probe) is even launched. -/
theorem externalIp_not_isolated :
    (∀ (ext : ExternalFns) (env : ProbeEnv) (sd : StaticData) (lo e : String),
       env.staticData = Except.ok sd → env.locale = Except.ok lo →
       env.publicIpV4 = Except.error e → gatherInput ext env = Except.error e) ∧
    (∀ (ext : ExternalFns) (env : ProbeEnv) (inp : Input),
       gatherInput ext env = Except.ok inp → env.publicIpV4 = Except.ok inp.listeningIp) ∧
    snapshotTrace.indexOf (SnapEvent.settle ProbeId.publicIp) <
      snapshotTrace.indexOf (SnapEvent.launch ProbeId.time) :=
  ⟨gatherInput_ip_error, gatherInput_ok_ip, by decide⟩

/-- C3 witness: part (a) of the theorem applied to the concrete
environment in which only the external-IP lookup rejects. -/
theorem externalIp_not_isolated_witness :
    gatherInput ext0 envIpFail = Except.error "timeout" :=
  externalIp_not_isolated.1 ext0 envIpFail sampleStatic "en-US" "timeout" rfl rfl rfl

/-- C3 counterexample: with every other probe fulfilled, a rejected
external-IP lookup yields no snapshot at all — the claim's promise that
the report still renders with `"unknown"` fails on the code. -/
theorem externalIp_failure_kills_report :
    okB (gatherInput ext0 envIpFail) = false := rfl

/-! ## C4 -/

/-- C4 counterexample: the launch order the `await` chain imposes is not
concurrent — after the first probe (`si.getStaticData`, line 132)
settles, another probe (`osLocale`, line 133) is launched, so probe
launches do wait on other probes' results. -/
theorem snapshotTrace_not_concurrent : concurrentLaunches snapshotTrace = false := by decide

/-- C4 fails as stated (amended form): the probes are launched strictly
sequentially — each probe is launched only after the previous probe has
settled (lines 132-160) — while the second half of the claim holds: the
`input` record is assembled (lines 176-190) only after all ten probes
have settled. -/
theorem snapshotTrace_sequential :
    strictlySequential snapshotTrace = true ∧
    allSettledBeforeAssemble snapshotTrace = true := by
  constructor <;> decide

/-! ## C7 -/

/-- C7: every list-valued snapshot field is rendered by a `.map` over the
input list (GPU controllers line 665, displays line 713, memory modules
line 777, disks line 849, filesystems line 398): the resulting sub-table
list has exactly the input's length and its j-th element is the sub-table
of the j-th input element — nothing is sorted, deduplicated, dropped or
duplicated. -/
theorem listFields_render_in_order :
    (∀ (gpus : List Gpu) (j : ℕ),
       (mapWithIndex renderGpuRow 0 gpus).length = gpus.length ∧
       (mapWithIndex renderGpuRow 0 gpus).get? j =
         (gpus.get? j).map (fun g => renderGpuRow j g)) ∧
    (∀ (displays : List Display) (j : ℕ),
       (mapWithIndex renderDisplayRow 0 displays).length = displays.length ∧
       (mapWithIndex renderDisplayRow 0 displays).get? j =
         (displays.get? j).map (fun d => renderDisplayRow j d)) ∧
    (∀ (mems : List MemModule) (j : ℕ),
       (mapWithIndex renderMemModuleRow 0 mems).length = mems.length ∧
       (mapWithIndex renderMemModuleRow 0 mems).get? j =
         (mems.get? j).map (fun m => renderMemModuleRow j m)) ∧
    (∀ (disks : List Disk) (j : ℕ),
       (mapWithIndex renderDiskRow 0 disks).length = disks.length ∧
       (mapWithIndex renderDiskRow 0 disks).get? j =
         (disks.get? j).map (fun d => renderDiskRow j d)) ∧
    (∀ (fs : List FsEntry) (j : ℕ),
       (fs.map storageRow).length = fs.length ∧
       (fs.map storageRow).get? j = (fs.get? j).map storageRow) := by
  refine ⟨fun l j => ⟨mapWithIndex_length _ 0 l, ?_⟩,
    fun l j => ⟨mapWithIndex_length _ 0 l, ?_⟩,
    fun l j => ⟨mapWithIndex_length _ 0 l, ?_⟩,
    fun l j => ⟨mapWithIndex_length _ 0 l, ?_⟩,
    fun l j => ⟨by simp, by simp [List.get?_map]⟩⟩ <;>
  · rw [mapWithIndex_get?]
    simp only [Nat.zero_add]

/-! ## C8 -/

set_option maxRecDepth 8192 in
/-- C8: the Storage Usage section (lines 380-421) is emitted
unconditionally; for an empty filesystem list the mapped row array is
empty, interpolates to the empty string, and the section consists of
exactly its header markup (including the "Storage Usage" title and the
column headers) and its closing markup, with zero sub-rows. -/
theorem storageSection_empty_list :
    storageSectionHtml [] = storageSectionHead ++ storageSectionTail ∧
    storageRowCount [] = 0 := by
  constructor
  · decide
  · rfl

/-! ## C9 -/

/-- C9 fails as stated (amended form): the CPU Usage table always emits
one row per entry of `currentLoad.cpus` (lines 308-321), so the row set
is stable; but when the speed or temperature probe reports fewer cores
than the load probe — e.g. an unavailable sensor yielding an empty
`cores` array — the corresponding cell renders the literal text
`"undefined"` (from interpolating an out-of-range array access), not a
`"N/A"`/`"unavailable"` placeholder. -/
theorem cpuCells_absent_render_undefined :
    (∀ (load : CurrentLoad) (speed : CpuSpeed) (temp : CpuTemp),
       (mapWithIndex (cpuRow speed.cores temp.cores) 0 load.cpus).length =
         load.cpus.length) ∧
    (∀ (cores : List ℚ) (i : ℕ), cores.get? i = none →
       cpuSpeedCell cores i = "<td>undefined Ghz</td>") ∧
    (∀ (cores : List ℚ) (i : ℕ), cores.get? i = none →
       cpuTempCell cores i = "<td>undefined</td>") := by
  refine ⟨fun load speed temp => mapWithIndex_length _ 0 load.cpus, ?_, ?_⟩
  · intro cores i h
    rw [cpuSpeedCell, jsIndexNum, h]
    rfl
  · intro cores i h
    rw [cpuTempCell, jsIndexNum, h]
    rfl

/-- C9 witness: the amended statement applied to a temperature and a
speed probe that reported no cores. -/
theorem cpuCells_absent_render_undefined_witness :
    cpuSpeedCell [] 0 = "<td>undefined Ghz</td>" ∧
    cpuTempCell [] 0 = "<td>undefined</td>" :=
  ⟨cpuCells_absent_render_undefined.2.1 [] 0 rfl,
   cpuCells_absent_render_undefined.2.2 [] 0 rfl⟩

/-- C9 counterexample: the temp cell for a core whose temperature is
unavailable is the literal `"undefined"`, which is neither of the
placeholder strings the claim requires. -/
theorem cpuTempCell_literal_undefined :
    cpuTempCell [] 0 = "<td>undefined</td>" ∧
    cpuTempCell [] 0 ≠ "<td>N/A</td>" ∧
    cpuTempCell [] 0 ≠ "<td>unavailable</td>" := by
  refine ⟨by decide, by decide, by decide⟩

/-! ## C10 -/

theorem stepPanel_preserves_inv (op : PanelOp) (s : PanelState) (h : panelInv s) :
    panelInv (stepPanel op s) := by
  cases op with
  | createOrShow =>
      cases hc : s.currentPanel with
      | none =>
          intro p hp
          simp only [stepPanel, hc] at hp ⊢
          injection hp with hp
          omega
      | some q =>
          intro p hp
          simp only [stepPanel, hc] at hp ⊢
          injection hp with hp
          exact hp ▸ h q hc
  | revive =>
      intro p hp
      simp only [stepPanel] at hp ⊢
      injection hp with hp
      omega
  | dispose =>
      intro p hp
      simp only [stepPanel] at hp
      exact Option.noConfusion hp

theorem runPanel_preserves_inv (ops : List PanelOp) (s : PanelState) (h : panelInv s) :
    panelInv (runPanel ops s) := by
  induction ops generalizing s with
  | nil => exact h
  | cons op ops ih => exact ih _ (stepPanel_preserves_inv op s h)

/-- C10: the panel is a singleton — the class tracks at most one
instance in `currentPanel`; `createOrShow` (lines 18-38) changes nothing
when a panel is tracked and constructs a new instance exactly when none
is; `dispose` (lines 86-98) clears the tracked instance; and after any
dispose, the instance a later `createOrShow` constructs is fresh (never
a previously tracked one). -/
theorem panel_singleton :
    (∀ (s : PanelState) (p : ℕ), s.currentPanel = some p →
       stepPanel PanelOp.createOrShow s = s) ∧
    (∀ s : PanelState, s.currentPanel = none →
       stepPanel PanelOp.createOrShow s =
         { currentPanel := some s.nextId, nextId := s.nextId + 1 }) ∧
    (∀ s : PanelState, (stepPanel PanelOp.dispose s).currentPanel = none) ∧
    (∀ (ops : List PanelOp) (s : PanelState), panelInv s → panelInv (runPanel ops s)) ∧
    (∀ (s : PanelState) (p : ℕ), s.currentPanel = some p → panelInv s →
       (stepPanel PanelOp.createOrShow (stepPanel PanelOp.dispose s)).currentPanel =
           some s.nextId ∧
         s.nextId ≠ p) := by
  refine ⟨?_, ?_, ?_, runPanel_preserves_inv, ?_⟩
  · intro s p h
    simp [stepPanel, h]
  · intro s h
    simp [stepPanel, h]
  · intro s
    rfl
  · intro s p h hinv
    exact ⟨rfl, (hinv p h).ne'⟩

/-- C10 witness: the singleton behaviour exercised at a concrete state
that tracks panel 0 with one construction performed. -/
theorem panel_singleton_witness :
    stepPanel PanelOp.createOrShow { currentPanel := some 0, nextId := 1 } =
        { currentPanel := some 0, nextId := 1 } ∧
    (stepPanel PanelOp.createOrShow
        (stepPanel PanelOp.dispose { currentPanel := some 0, nextId := 1 })).currentPanel =
      some 1 ∧
    (1 : ℕ) ≠ 0 ∧
    panelInv (runPanel [PanelOp.createOrShow, PanelOp.dispose] initPanelState) := by
  have h1 := panel_singleton.1 { currentPanel := some 0, nextId := 1 } 0 rfl
  have hinv : panelInv { currentPanel := some 0, nextId := 1 } := by
    intro p hp
    injection hp with hp
    show p < 1
    omega
  have h5 := panel_singleton.2.2.2.2 { currentPanel := some 0, nextId := 1 } 0 rfl hinv
  have h4 := panel_singleton.2.2.2.1 [PanelOp.createOrShow, PanelOp.dispose] initPanelState
    (by intro p hp; exact Option.noConfusion hp)
  exact ⟨h1, h5.1, h5.2, h4⟩
